import Mathlib

/-!
Verification of the canvas module of tuikit (src/src/canvas.rs): the Canvas
trait with its derived text operations, and the BoundedCanvas sub-area
adapter that translates coordinates and enforces window bounds.

Mutable trait methods of the source are embedded as state-passing functions:
a method on a receiver of state type σ returning a Result becomes a function
σ → ... → σ × Except CanvasError β, so that state changes made before a
failure are preserved in the result.
-/

/-- Modelled from the spec: the style attribute type of attr.rs, which is not
part of this snapshot. The spec treats it as an opaque externally defined
value type with a default value, so it is modelled as a wrapper around a
numeric code with default zero. -/
structure Attr where
  code : Nat := 0
deriving DecidableEq

/-- Modelled from the spec: the default style attribute. -/
def Attr.default : Attr := {}

/-- Modelled from the spec: the Cell type of cell.rs, which is not part of
this snapshot: one character plus its style attribute, copied by value. -/
structure Cell where
  ch : Char
  attr : Attr
deriving DecidableEq

/-- Modelled from the spec: the default cell, a blank character with the
default attribute. -/
def Cell.default : Cell := ⟨' ', Attr.default⟩

/-- Modelled from the spec: the empty cell used by clear operations, a blank
character with the default attribute. -/
def Cell.empty : Cell := Cell.default

/-- Errors of canvas operations. The bounded canvas fails with a formatted
out-of-box message naming the offending coordinate, modelled structurally by
the outOfBox constructor; opaque backend failures carry a message. -/
inductive CanvasError where
  | outOfBox (row : Nat) (col : Nat)
  | other (msg : String)
deriving DecidableEq

deriving instance DecidableEq for Except

/-- Record of the five primitive operations of the Canvas trait, for a
backend whose mutable state has type σ. Methods taking a mutable receiver
return the updated state next to the result. -/
structure CanvasOps (σ : Type) where
  size : σ → Except CanvasError (Nat × Nat)
  clear : σ → σ × Except CanvasError Unit
  put_cell : σ → Nat → Nat → Cell → σ × Except CanvasError Nat
  set_cursor : σ → Nat → Nat → σ × Except CanvasError Unit
  show_cursor : σ → Bool → σ × Except CanvasError Unit

variable {σ : Type}

/-- Default method put_ch_with_attr of the Canvas trait: build a cell from
the character and the attribute and delegate to put_cell. -/
def Canvas.put_ch_with_attr (ops : CanvasOps σ) (s : σ) (row col : Nat) (ch : Char)
    (attr : Attr) : σ × Except CanvasError Nat :=
  ops.put_cell s row col ⟨ch, attr⟩

/-- Loop of print_with_attr over the remaining characters, carrying the
running width: each character is written at (row, col + width) and then the
width advances by the display width of the character, where cw is the
display-width oracle of the unicode width crate and an unknown width falls
back to 2. The first failing write ends the loop with that error. -/
def printLoop (ops : CanvasOps σ) (cw : Char → Option Nat) (row col : Nat) (attr : Attr) :
    σ → List Char → Nat → σ × Except CanvasError Nat
  | s, [], width => (s, .ok width)
  | s, ch :: rest, width =>
    match ops.put_cell s row (col + width) ⟨ch, attr⟩ with
    | (s2, .ok _) => printLoop ops cw row col attr s2 rest (width + (cw ch).getD 2)
    | (s2, .error e) => (s2, .error e)

/-- Default method print_with_attr of the Canvas trait; content stands for
the list of characters of the printed string. -/
def Canvas.print_with_attr (ops : CanvasOps σ) (cw : Char → Option Nat) (s : σ)
    (row col : Nat) (content : List Char) (attr : Attr) : σ × Except CanvasError Nat :=
  printLoop ops cw row col attr s content 0

/-- Default method print of the Canvas trait: print_with_attr with the
default attribute. -/
def Canvas.print (ops : CanvasOps σ) (cw : Char → Option Nat) (s : σ) (row col : Nat)
    (content : List Char) : σ × Except CanvasError Nat :=
  Canvas.print_with_attr ops cw s row col content Attr.default

/-- The BoundedCanvas struct: a mutable handle to the parent canvas plus the
window geometry (top, left, width, height) in parent coordinates. -/
structure BoundedCanvas (σ : Type) where
  canvas : CanvasOps σ
  top : Nat
  left : Nat
  width : Nat
  height : Nat

/-- Constructor BoundedCanvas::new: stores the geometry and the parent
handle as given, with no validation against the parent size. -/
def BoundedCanvas.new (top left width height : Nat) (canvas : CanvasOps σ) :
    BoundedCanvas σ :=
  { canvas := canvas, top := top, left := left, width := width, height := height }

/-- Method size of BoundedCanvas: the window size, never the parent size. -/
def BoundedCanvas.size (b : BoundedCanvas σ) : Except CanvasError (Nat × Nat) :=
  .ok (b.width, b.height)

/-- Method put_cell of BoundedCanvas: reject coordinates outside the window,
otherwise delegate to the parent at the translated coordinate. -/
def BoundedCanvas.put_cell (b : BoundedCanvas σ) (s : σ) (row col : Nat) (cell : Cell) :
    σ × Except CanvasError Nat :=
  if row ≥ b.height ∨ col ≥ b.width then (s, .error (.outOfBox row col))
  else b.canvas.put_cell s (row + b.top) (col + b.left) cell

/-- Method set_cursor of BoundedCanvas: same bounds check and translation as
put_cell. -/
def BoundedCanvas.set_cursor (b : BoundedCanvas σ) (s : σ) (row col : Nat) :
    σ × Except CanvasError Unit :=
  if row ≥ b.height ∨ col ≥ b.width then (s, .error (.outOfBox row col))
  else b.canvas.set_cursor s (row + b.top) (col + b.left)

/-- One body iteration of the clear loop: the result of the write is
discarded, keeping whatever state the attempt produced. -/
def BoundedCanvas.clearCell (b : BoundedCanvas σ) (s : σ) (row col : Nat) : σ :=
  (b.put_cell s row col Cell.empty).1

/-- Method clear of BoundedCanvas, exactly as in the source: row ranges over
top..top+height and col over left..left+width, each pair being passed to the
own put_cell of the bounded canvas with the per-cell result discarded, and
the method returns Ok. -/
def BoundedCanvas.clear (b : BoundedCanvas σ) (s : σ) : σ × Except CanvasError Unit :=
  ((List.range' b.top b.height).foldl
    (fun s1 row =>
      (List.range' b.left b.width).foldl (fun s2 col => b.clearCell s2 row col) s1)
    s, .ok ())

/-- Method show_cursor of BoundedCanvas: passed straight to the parent. -/
def BoundedCanvas.show_cursor (b : BoundedCanvas σ) (s : σ) (sh : Bool) :
    σ × Except CanvasError Unit :=
  b.canvas.show_cursor s sh

/-- The Canvas impl of BoundedCanvas packaged as a record of primitive
operations, so a bounded canvas can itself be wrapped again. -/
def BoundedCanvas.toOps (b : BoundedCanvas σ) : CanvasOps σ where
  size := fun _ => b.size
  clear := b.clear
  put_cell := b.put_cell
  set_cursor := b.set_cursor
  show_cursor := b.show_cursor

/-- Modelled from the spec: a concrete canvas backend (a test buffer) with a
fixed size, a log of written cells (most recent first), and a cursor. Writes
and cursor moves outside the grid fail with an out-of-bounds error naming
the coordinate and leave the state unchanged. -/
structure Grid where
  width : Nat
  height : Nat
  cells : List (Nat × Nat × Cell)
  cursor : Nat × Nat
  cursorVisible : Bool
deriving DecidableEq

/-- Primitive operations of the Grid test backend. -/
def Grid.ops : CanvasOps Grid where
  size := fun g => .ok (g.width, g.height)
  clear := fun g => ({ g with cells := [] }, .ok ())
  put_cell := fun g row col cell =>
    if row ≥ g.height ∨ col ≥ g.width then (g, .error (.outOfBox row col))
    else ({ g with cells := (row, col, cell) :: g.cells }, .ok 1)
  set_cursor := fun g row col =>
    if row ≥ g.height ∨ col ≥ g.width then (g, .error (.outOfBox row col))
    else ({ g with cursor := (row, col), cursorVisible := true }, .ok ())
  show_cursor := fun g sh => ({ g with cursorVisible := sh }, .ok ())

/-- Modelled from the spec: a backend every primitive of which fails with an
opaque backend error while leaving its state unchanged. -/
def failOps (σ : Type) : CanvasOps σ where
  size := fun _ => .error (.other "backend failure")
  clear := fun s => (s, .error (.other "backend failure"))
  put_cell := fun s _ _ _ => (s, .error (.other "backend failure"))
  set_cursor := fun s _ _ => (s, .error (.other "backend failure"))
  show_cursor := fun s _ => (s, .error (.other "backend failure"))

/-- Reference layout of print_with_attr, written from the spec: the cell of
the i-th character of the content is placed at row row and at column col
plus the sum of the display widths of the characters before it. -/
def printPlacements (cw : Char → Option Nat) (row col : Nat) (attr : Attr) :
    List Char → List (Nat × Nat × Cell)
  | [] => []
  | ch :: rest =>
    (row, col, ⟨ch, attr⟩) :: printPlacements cw row (col + (cw ch).getD 2) attr rest

/-- Sum of the display widths of the characters of the content, with the
fallback width 2 for a character of unknown width. -/
def printedWidth (cw : Char → Option Nat) : List Char → Nat
  | [] => 0
  | ch :: rest => (cw ch).getD 2 + printedWidth cw rest

/-- Run a list of put_cell writes in order on a canvas, stopping at the first
error; when every write succeeds the given total width is returned. -/
def runPuts (ops : CanvasOps σ) : σ → List (Nat × Nat × Cell) → Nat → σ × Except CanvasError Nat
  | s, [], total => (s, .ok total)
  | s, (r, c, cell) :: rest, total =>
    match ops.put_cell s r c cell with
    | (s2, .ok _) => runPuts ops s2 rest total
    | (s2, .error e) => (s2, .error e)

/-- Demo cell used to instantiate theorems on concrete inputs. -/
def demoCell : Cell := ⟨'a', Attr.default⟩

/-- Empty 2 by 2 test grid. -/
def grid2 : Grid :=
  { width := 2, height := 2, cells := [], cursor := (0, 0), cursorVisible := false }

/-- Empty 3 by 3 test grid. -/
def grid3 : Grid :=
  { width := 3, height := 3, cells := [], cursor := (0, 0), cursorVisible := false }

/-- Empty 5 by 5 test grid. -/
def grid5 : Grid :=
  { width := 5, height := 5, cells := [], cursor := (0, 0), cursorVisible := false }

/-- Empty single-row test grid of width 2. -/
def gridRow : Grid :=
  { width := 2, height := 1, cells := [], cursor := (0, 0), cursorVisible := false }

/-- Empty 1 by 1 test grid. -/
def gridTiny : Grid :=
  { width := 1, height := 1, cells := [], cursor := (0, 0), cursorVisible := false }

/-- The single-row grid after the characters a and b were printed at the
start of row 0 with the default attribute. -/
def gridRowAfterAB : Grid :=
  { width := 2, height := 1,
    cells := [(0, 1, ⟨'b', Attr.default⟩), (0, 0, ⟨'a', Attr.default⟩)],
    cursor := (0, 0), cursorVisible := false }

/-- Demo display-width oracle: the character W is wide, the question mark has
unknown width, every other character is narrow. -/
def demoCW : Char → Option Nat :=
  fun c => if c = 'W' then some 2 else if c = '?' then none else some 1

theorem printLoop_eq_runPuts (ops : CanvasOps σ) (cw : Char → Option Nat) (row : Nat)
    (attr : Attr) :
    ∀ (content : List Char) (s : σ) (col w : Nat),
      printLoop ops cw row col attr s content w =
        runPuts ops s (printPlacements cw row (col + w) attr content)
          (w + printedWidth cw content) := by
  intro content
  induction content with
  | nil =>
    intro s col w
    simp [printLoop, printPlacements, printedWidth, runPuts]
  | cons ch rest ih =>
    intro s col w
    simp only [printLoop, printPlacements, printedWidth, runPuts]
    cases h : ops.put_cell s row (col + w) ⟨ch, attr⟩ with
    | mk s2 r =>
      cases r with
      | error e => rfl
      | ok v =>
        dsimp only
        rw [ih s2 col (w + (cw ch).getD 2)]
        have e1 : col + (w + (cw ch).getD 2) = col + w + (cw ch).getD 2 := by omega
        have e2 : w + (cw ch).getD 2 + printedWidth cw rest
            = w + ((cw ch).getD 2 + printedWidth cw rest) := by omega
        rw [e1, e2]

theorem printLoop_append_error (ops : CanvasOps σ) (cw : Char → Option Nat) (row col : Nat)
    (attr : Attr) :
    ∀ (pre : List Char) (s s1 s2 : σ) (w W : Nat) (ch : Char) (post : List Char)
      (e : CanvasError),
      printLoop ops cw row col attr s pre w = (s1, .ok W) →
      ops.put_cell s1 row (col + W) ⟨ch, attr⟩ = (s2, .error e) →
      printLoop ops cw row col attr s (pre ++ ch :: post) w = (s2, .error e) := by
  intro pre
  induction pre with
  | nil =>
    intro s s1 s2 w W ch post e h1 h2
    simp only [printLoop] at h1
    injection h1 with hs hr
    injection hr with hw
    subst hs
    subst hw
    simp only [List.nil_append, printLoop]
    rw [h2]
  | cons a pre2 ih =>
    intro s s1 s2 w W ch post e h1 h2
    simp only [printLoop] at h1
    simp only [List.cons_append, printLoop]
    cases h : ops.put_cell s row (col + w) ⟨a, attr⟩ with
    | mk sa ra =>
      rw [h] at h1
      cases ra with
      | error e2 => simp at h1
      | ok v => exact ih sa s1 s2 (w + (cw a).getD 2) W ch post e h1 h2

theorem foldl_fixed_state {α β : Type} (f : α → β → α) (hf : ∀ a b, f a b = a) :
    ∀ (L : List β) (a : α), L.foldl f a = a := by
  intro L
  induction L with
  | nil => intro a; rfl
  | cons x xs ih => intro a; rw [List.foldl_cons, hf]; exact ih a

theorem printedWidth_all_narrow (cw : Char → Option Nat) :
    ∀ (content : List Char), (∀ ch ∈ content, cw ch = some 1) →
      printedWidth cw content = content.length := by
  intro content
  induction content with
  | nil => intro _; rfl
  | cons ch rest ih =>
    intro h
    simp only [printedWidth, List.length_cons]
    rw [h ch (by simp), ih (fun c hc => h c (by simp [hc]))]
    simp only [Option.getD_some]
    omega

/-- Claim C1 is violated by the code: clear on the bounded canvas with window
(top, left, w, h) = (1, 0, 1, 1) over a 3 by 3 grid writes no parent cell at
all, although the claim requires parent cell (1, 0) to receive the empty
cell; and with window (1, 0, 1, 2) over a 5 by 5 grid it writes only parent
cell (2, 0), although the claim requires exactly the parent cells (1, 0) and
(2, 0) to be written. The loop of clear iterates parent-space coordinates
top..top+h and left..left+w but passes them to the window-relative put_cell,
which checks them against the window size and adds the offset a second
time. -/
theorem clear_double_offset_demo :
    (BoundedCanvas.new 1 0 1 1 Grid.ops).clear grid3 = (grid3, .ok ()) ∧
    (BoundedCanvas.new 1 0 1 2 Grid.ops).clear grid5 =
      ({ grid5 with cells := [(2, 0, Cell.empty)] }, .ok ()) := by
  constructor <;> decide

/-- Claim C2 fails as stated: over a 2 by 2 grid, the bounded canvas with
window (1, 0, 1, 1) built over the bounded canvas with window (0, 0, 1, 1)
rejects the write at (0, 0) that the single bounded canvas with the summed
window (1, 0, 1, 1) forwards to the parent; and even when the inner window
fits inside the outer one, clear behaves differently because of the defect
shown for claim C1. -/
theorem nested_differs_from_composed :
    (BoundedCanvas.new 1 0 1 1 ((BoundedCanvas.new 0 0 1 1 Grid.ops).toOps)).put_cell
        grid2 0 0 demoCell ≠
      (BoundedCanvas.new (0 + 1) (0 + 0) 1 1 Grid.ops).put_cell grid2 0 0 demoCell ∧
    (BoundedCanvas.new 0 0 1 2 ((BoundedCanvas.new 1 0 3 3 Grid.ops).toOps)).clear grid5 ≠
      (BoundedCanvas.new (1 + 0) (0 + 0) 1 2 Grid.ops).clear grid5 := by
  constructor <;> decide

/-- Claim C2 amended: when the inner window fits inside the outer window,
that is t2 + h2 ≤ h1 and l2 + w2 ≤ w1, the bounded canvas with window
(t2, l2, w2, h2) over the bounded canvas with window (t1, l1, w1, h1) over a
parent behaves, for put_cell, set_cursor, size and show_cursor, exactly as
the single bounded canvas over the parent with window
(t1 + t2, l1 + l2, w2, h2); clear is excluded because of the defect shown
for claim C1, and without the fit condition the claim fails. -/
theorem nested_composes_within_fit (ops : CanvasOps σ) (t1 l1 w1 h1 t2 l2 w2 h2 : Nat)
    (s : σ) (row col : Nat) (cell : Cell) (sh : Bool)
    (hh : t2 + h2 ≤ h1) (hw : l2 + w2 ≤ w1) :
    (BoundedCanvas.new t2 l2 w2 h2 ((BoundedCanvas.new t1 l1 w1 h1 ops).toOps)).put_cell
        s row col cell =
      (BoundedCanvas.new (t1 + t2) (l1 + l2) w2 h2 ops).put_cell s row col cell ∧
    (BoundedCanvas.new t2 l2 w2 h2 ((BoundedCanvas.new t1 l1 w1 h1 ops).toOps)).set_cursor
        s row col =
      (BoundedCanvas.new (t1 + t2) (l1 + l2) w2 h2 ops).set_cursor s row col ∧
    (BoundedCanvas.new t2 l2 w2 h2 ((BoundedCanvas.new t1 l1 w1 h1 ops).toOps)).size =
      (BoundedCanvas.new (t1 + t2) (l1 + l2) w2 h2 ops).size ∧
    (BoundedCanvas.new t2 l2 w2 h2 ((BoundedCanvas.new t1 l1 w1 h1 ops).toOps)).show_cursor
        s sh =
      (BoundedCanvas.new (t1 + t2) (l1 + l2) w2 h2 ops).show_cursor s sh := by
  refine ⟨?_, ?_, rfl, rfl⟩
  · by_cases hb : row ≥ h2 ∨ col ≥ w2
    · simp [BoundedCanvas.put_cell, BoundedCanvas.new, hb]
    · push_neg at hb
      obtain ⟨hr, hc⟩ := hb
      have hb1 : ¬ (row ≥ h2 ∨ col ≥ w2) := by omega
      have hb2 : ¬ (row + t2 ≥ h1 ∨ col + l2 ≥ w1) := by omega
      simp only [BoundedCanvas.put_cell, BoundedCanvas.new, BoundedCanvas.toOps, if_neg hb1,
        if_neg hb2]
      have e1 : row + t2 + t1 = row + (t1 + t2) := by omega
      have e2 : col + l2 + l1 = col + (l1 + l2) := by omega
      rw [e1, e2]
  · by_cases hb : row ≥ h2 ∨ col ≥ w2
    · simp [BoundedCanvas.set_cursor, BoundedCanvas.new, hb]
    · push_neg at hb
      obtain ⟨hr, hc⟩ := hb
      have hb1 : ¬ (row ≥ h2 ∨ col ≥ w2) := by omega
      have hb2 : ¬ (row + t2 ≥ h1 ∨ col + l2 ≥ w1) := by omega
      simp only [BoundedCanvas.set_cursor, BoundedCanvas.new, BoundedCanvas.toOps, if_neg hb1,
        if_neg hb2]
      have e1 : row + t2 + t1 = row + (t1 + t2) := by omega
      have e2 : col + l2 + l1 = col + (l1 + l2) := by omega
      rw [e1, e2]

/-- Witness for the amended claim C2 at a concrete fitting geometry. -/
theorem nested_composes_within_fit_witness :
    (BoundedCanvas.new 1 2 2 2 ((BoundedCanvas.new 1 1 5 5 Grid.ops).toOps)).put_cell
        grid5 0 1 demoCell =
      (BoundedCanvas.new (1 + 1) (1 + 2) 2 2 Grid.ops).put_cell grid5 0 1 demoCell ∧
    (BoundedCanvas.new 1 2 2 2 ((BoundedCanvas.new 1 1 5 5 Grid.ops).toOps)).set_cursor
        grid5 0 1 =
      (BoundedCanvas.new (1 + 1) (1 + 2) 2 2 Grid.ops).set_cursor grid5 0 1 ∧
    (BoundedCanvas.new 1 2 2 2 ((BoundedCanvas.new 1 1 5 5 Grid.ops).toOps)).size =
      (BoundedCanvas.new (1 + 1) (1 + 2) 2 2 Grid.ops).size ∧
    (BoundedCanvas.new 1 2 2 2 ((BoundedCanvas.new 1 1 5 5 Grid.ops).toOps)).show_cursor
        grid5 true =
      (BoundedCanvas.new (1 + 1) (1 + 2) 2 2 Grid.ops).show_cursor grid5 true :=
  nested_composes_within_fit Grid.ops 1 1 5 5 1 2 2 2 grid5 0 1 demoCell true
    (by decide) (by decide)

/-- Claim C3: for coordinates inside the window, put_cell on the bounded
canvas delegates to the parent put_cell at the translated coordinate
(row + top, col + left) with the same cell, returning the full result of the
parent, so the write is observationally equivalent to a direct parent write
and reports exactly the width the parent reports. -/
theorem bounded_put_cell_delegates (b : BoundedCanvas σ) (s : σ) (row col : Nat)
    (cell : Cell) (hr : row < b.height) (hc : col < b.width) :
    b.put_cell s row col cell = b.canvas.put_cell s (row + b.top) (col + b.left) cell := by
  have hb : ¬ (row ≥ b.height ∨ col ≥ b.width) := by omega
  simp [BoundedCanvas.put_cell, hb]

/-- Witness for claim C3 on a concrete grid and window. -/
theorem bounded_put_cell_delegates_witness :
    (BoundedCanvas.new 1 2 3 3 Grid.ops).put_cell grid5 1 1 demoCell =
      Grid.ops.put_cell grid5 (1 + 1) (1 + 2) demoCell :=
  bounded_put_cell_delegates (BoundedCanvas.new 1 2 3 3 Grid.ops) grid5 1 1 demoCell
    (by decide) (by decide)

/-- Claim C4: for coordinates outside the window, put_cell and set_cursor on
the bounded canvas both return the out-of-box error naming the offending
coordinate, and the resulting state is exactly the input state whatever the
parent is, so no parent operation is invoked and the parent stays
unmodified. -/
theorem bounded_out_of_box_rejects (b : BoundedCanvas σ) (s : σ) (row col : Nat)
    (cell : Cell) (h : row ≥ b.height ∨ col ≥ b.width) :
    b.put_cell s row col cell = (s, .error (.outOfBox row col)) ∧
    b.set_cursor s row col = (s, .error (.outOfBox row col)) := by
  constructor
  · simp [BoundedCanvas.put_cell, h]
  · simp [BoundedCanvas.set_cursor, h]

/-- Witness for claim C4 on a concrete grid and window. -/
theorem bounded_out_of_box_rejects_witness :
    (BoundedCanvas.new 1 2 3 3 Grid.ops).put_cell grid5 5 0 demoCell =
      (grid5, .error (.outOfBox 5 0)) ∧
    (BoundedCanvas.new 1 2 3 3 Grid.ops).set_cursor grid5 5 0 =
      (grid5, .error (.outOfBox 5 0)) :=
  bounded_out_of_box_rejects (BoundedCanvas.new 1 2 3 3 Grid.ops) grid5 5 0 demoCell
    (Or.inl (by decide))

/-- Claim C5: on any canvas, print_with_attr performs exactly the put_cell
writes that place the i-th character of the content at row row and at column
col plus the sum of the display widths of the previous characters, stopping
at the first error, and returns the sum of all display widths when every
write succeeds, the width of a character being 1 when narrow, 2 when wide
and the fallback 2 when indeterminate; in particular a content of narrow
characters has printed width equal to its length, and a wide character
followed by a narrow one places the narrow one two columns later with total
width 3. -/
theorem print_with_attr_layout (ops : CanvasOps σ) (cw : Char → Option Nat) (s : σ)
    (row col : Nat) (content : List Char) (attr : Attr) (a b : Char) :
    Canvas.print_with_attr ops cw s row col content attr =
      runPuts ops s (printPlacements cw row col attr content) (printedWidth cw content) ∧
    ((∀ ch ∈ content, cw ch = some 1) → printedWidth cw content = content.length) ∧
    (cw a = some 2 → cw b = some 1 →
      Canvas.print_with_attr ops cw s row col [a, b] attr =
        runPuts ops s [(row, col, ⟨a, attr⟩), (row, col + 2, ⟨b, attr⟩)] 3) := by
  refine ⟨?_, printedWidth_all_narrow cw content, ?_⟩
  · have h := printLoop_eq_runPuts ops cw row attr content s col 0
    simpa [Canvas.print_with_attr] using h
  · intro ha hb
    have h := printLoop_eq_runPuts ops cw row attr [a, b] s col 0
    simp only [Canvas.print_with_attr, printPlacements, printedWidth, ha, hb,
      Option.getD_some, Nat.add_zero, Nat.zero_add] at h ⊢
    rw [h]

/-- Witness for claim C5 with a concrete width oracle and content. -/
theorem print_with_attr_layout_witness :
    printedWidth demoCW ['a', 'b'] = ['a', 'b'].length ∧
    Canvas.print_with_attr Grid.ops demoCW grid5 0 0 ['W', 'n'] Attr.default =
      runPuts Grid.ops grid5
        [(0, 0, ⟨'W', Attr.default⟩), (0, 0 + 2, ⟨'n', Attr.default⟩)] 3 :=
  ⟨(print_with_attr_layout Grid.ops demoCW grid5 0 0 ['a', 'b'] Attr.default 'W' 'n').2.1
      (by decide),
    (print_with_attr_layout Grid.ops demoCW grid5 0 0 ['W', 'n'] Attr.default 'W' 'n').2.2
      (by decide) (by decide)⟩

/-- Claim C6: when the writes of a prefix of the content all succeed and the
write of the next character fails, print_with_attr returns exactly that
first error together with the state left by the failing call, whatever the
remaining characters are, so the first per-cell error aborts the print
immediately, nothing further is written and no wrapping to another row
occurs. -/
theorem print_first_error_aborts (ops : CanvasOps σ) (cw : Char → Option Nat)
    (s s1 s2 : σ) (row col W : Nat) (attr : Attr) (pre : List Char) (ch : Char)
    (post : List Char) (e : CanvasError)
    (h1 : Canvas.print_with_attr ops cw s row col pre attr = (s1, .ok W))
    (h2 : ops.put_cell s1 row (col + W) ⟨ch, attr⟩ = (s2, .error e)) :
    Canvas.print_with_attr ops cw s row col (pre ++ ch :: post) attr = (s2, .error e) :=
  printLoop_append_error ops cw row col attr pre s s1 s2 0 W ch post e h1 h2

/-- Witness for claim C6: printing abc on a one-row grid of width 2 writes a
and b, then the write of c at column 2 fails out of bounds and aborts. -/
theorem print_first_error_aborts_witness :
    Canvas.print_with_attr Grid.ops (fun _ => some 1) gridRow 0 0 (['a', 'b'] ++ 'c' :: [])
        Attr.default =
      (gridRowAfterAB, .error (.outOfBox 0 2)) :=
  print_first_error_aborts Grid.ops (fun _ => some 1) gridRow gridRowAfterAB gridRowAfterAB
    0 0 2 Attr.default ['a', 'b'] 'c' [] (.outOfBox 0 2) (by decide) (by decide)

/-- Claim C7: clear on a bounded canvas always returns Ok: the result of
every per-cell write is discarded, and in particular over a parent whose
every put_cell fails, clear still succeeds with the state unchanged. -/
theorem bounded_clear_always_ok (b : BoundedCanvas σ) (s : σ) (t l w h : Nat) :
    (b.clear s).2 = .ok () ∧
    (BoundedCanvas.new t l w h (failOps σ)).clear s = (s, .ok ()) := by
  constructor
  · rfl
  · have hc : ∀ (s2 : σ) (row col : Nat),
        (BoundedCanvas.new t l w h (failOps σ)).clearCell s2 row col = s2 := by
      intro s2 row col
      unfold BoundedCanvas.clearCell BoundedCanvas.put_cell
      split <;> rfl
    have hinner : ∀ (row : Nat) (s1 : σ),
        (List.range' l w).foldl
          (fun s2 col => (BoundedCanvas.new t l w h (failOps σ)).clearCell s2 row col) s1
          = s1 :=
      fun row s1 => foldl_fixed_state _ (fun a c => hc a row c) _ s1
    have houter : (List.range' t h).foldl
        (fun s1 row =>
          (List.range' l w).foldl
            (fun s2 col => (BoundedCanvas.new t l w h (failOps σ)).clearCell s2 row col) s1)
        s = s :=
      foldl_fixed_state _ (fun a r => hinner r a) _ s
    show ((List.range' t h).foldl
        (fun s1 row =>
          (List.range' l w).foldl
            (fun s2 col => (BoundedCanvas.new t l w h (failOps σ)).clearCell s2 row col) s1)
        s, Except.ok ()) = (s, Except.ok ())
    rw [houter]

/-- Claim C8: size on a bounded canvas returns exactly the window size, both
as a method and through the packaged operations, for every parent backend,
every parent state and every geometry, so the parent size is never queried
nor exposed. -/
theorem bounded_size_is_window (ops : CanvasOps σ) (t l w h : Nat) (s : σ) :
    (BoundedCanvas.new t l w h ops).toOps.size s = .ok (w, h) ∧
    (BoundedCanvas.new t l w h ops).size = .ok (w, h) :=
  ⟨rfl, rfl⟩

/-- Claim C9: printing empty content returns success with width 0 and leaves
the state of any canvas unchanged, at any coordinates, also outside the
canvas or window, for both print_with_attr and print: no put_cell call is
made and the start position itself is never bounds checked. -/
theorem print_empty_no_write (ops : CanvasOps σ) (cw : Char → Option Nat) (s : σ)
    (row col : Nat) (attr : Attr) :
    Canvas.print_with_attr ops cw s row col [] attr = (s, .ok 0) ∧
    Canvas.print ops cw s row col [] = (s, .ok 0) :=
  ⟨rfl, rfl⟩

/-- Claim C10: construction of a bounded canvas always succeeds, storing the
given geometry and parent handle unvalidated against the parent size, and an
in-window write equals the parent write at the translated coordinate, so it
fails exactly when the parent fails there: over a 1 by 1 parent, a bounded
canvas with a 5 by 5 window accepts the coordinate (3, 3) itself and the
write fails only with the parent out-of-bounds error at (3, 3). -/
theorem bounded_new_unvalidated (ops : CanvasOps σ) (t l w h : Nat) (s : σ)
    (row col : Nat) (cell : Cell) (hr : row < h) (hc : col < w) :
    (BoundedCanvas.new t l w h ops).top = t ∧
    (BoundedCanvas.new t l w h ops).left = l ∧
    (BoundedCanvas.new t l w h ops).width = w ∧
    (BoundedCanvas.new t l w h ops).height = h ∧
    (BoundedCanvas.new t l w h ops).canvas = ops ∧
    (BoundedCanvas.new t l w h ops).put_cell s row col cell =
      ops.put_cell s (row + t) (col + l) cell ∧
    (BoundedCanvas.new 0 0 5 5 Grid.ops).put_cell gridTiny 3 3 cell =
      (gridTiny, .error (.outOfBox 3 3)) := by
  refine ⟨rfl, rfl, rfl, rfl, rfl, ?_, ?_⟩
  · have hb : ¬ (row ≥ h ∨ col ≥ w) := by omega
    simp [BoundedCanvas.put_cell, BoundedCanvas.new, hb]
  · rfl

/-- Witness for claim C10 on a concrete grid and window. -/
theorem bounded_new_unvalidated_witness :
    (BoundedCanvas.new 2 3 4 4 Grid.ops).top = 2 ∧
    (BoundedCanvas.new 2 3 4 4 Grid.ops).left = 3 ∧
    (BoundedCanvas.new 2 3 4 4 Grid.ops).width = 4 ∧
    (BoundedCanvas.new 2 3 4 4 Grid.ops).height = 4 ∧
    (BoundedCanvas.new 2 3 4 4 Grid.ops).canvas = Grid.ops ∧
    (BoundedCanvas.new 2 3 4 4 Grid.ops).put_cell grid5 1 1 demoCell =
      Grid.ops.put_cell grid5 (1 + 2) (1 + 3) demoCell ∧
    (BoundedCanvas.new 0 0 5 5 Grid.ops).put_cell gridTiny 3 3 demoCell =
      (gridTiny, .error (.outOfBox 3 3)) :=
  bounded_new_unvalidated Grid.ops 2 3 4 4 grid5 1 1 demoCell (by decide) (by decide)
